import Mathlib

/-!
Verification of the CodeSnap VS Code extension (`src/extension.ts`) against
its natural-language specification. The definitions below are a shallow
embedding of the extension's own logic: HTML escaping, theme lookup, the
highlighter adapter's fallback path, line-number gutter generation, webview
document assembly, the panel (surface) lifecycle, the command guards, and
the webview-to-host message handler. Host services (editor, save dialog,
highlight library) are passed in as explicit parameters.
-/

namespace CodeSnap

/-! ## HTML escaping (`escapeHtml`, extension.ts lines 410-417)

JavaScript `text.replace(/X/g, rep)` replaces every occurrence of the
single character `X`, scanning left to right, without re-scanning the
replacement text. `replaceChar` embeds that, and `escapeHtml` chains the
five substitutions in the source's order (ampersand first). -/

/-- Replace every occurrence of the character `pat` by the string `rep`
(as a character list); replacements are not re-scanned. -/
def replaceChar (pat : Char) (rep : List Char) : List Char → List Char
  | [] => []
  | c :: rest =>
    if c = pat then rep ++ replaceChar pat rep rest
    else c :: replaceChar pat rep rest

/-- Embedding of `escapeHtml`: the five global replacements applied in the
source order `&`, `<`, `>`, `"`, `'`. -/
def escapeHtml (text : String) : String :=
  ⟨replaceChar '\x27' "&#039;".data
    (replaceChar '\x22' "&quot;".data
      (replaceChar '>' "&gt;".data
        (replaceChar '<' "&lt;".data
          (replaceChar '&' "&amp;".data text.data))))⟩

/-! ## Theme table (`themeConfigs`, extension.ts lines 7-22) -/

structure ThemeConfig where
  bg : String
  headerBg : String
  lineNumColor : String
  borderColor : String
  titleColor : String
  shikiTheme : String
deriving DecidableEq, Repr

def darkConfig : ThemeConfig :=
  { bg := "#1e1e1e", headerBg := "#2d2d2d", lineNumColor := "#858585",
    borderColor := "#333333", titleColor := "#999999", shikiTheme := "dark-plus" }

def lightConfig : ThemeConfig :=
  { bg := "#ffffff", headerBg := "#e8e8e8", lineNumColor := "#999999",
    borderColor := "#dddddd", titleColor := "#666666", shikiTheme := "light-plus" }

def monokaiConfig : ThemeConfig :=
  { bg := "#272822", headerBg := "#1e1f1c", lineNumColor := "#75715e",
    borderColor := "#3e3d32", titleColor := "#a6a28c", shikiTheme := "monokai" }

def nordConfig : ThemeConfig :=
  { bg := "#2e3440", headerBg := "#3b4252", lineNumColor := "#4c566a",
    borderColor := "#4c566a", titleColor := "#7b88a1", shikiTheme := "nord" }

def draculaConfig : ThemeConfig :=
  { bg := "#282a36", headerBg := "#21222c", lineNumColor := "#6272a4",
    borderColor := "#44475a", titleColor := "#6272a4", shikiTheme := "dracula" }

/-- What a JavaScript bracket lookup on the object literal can produce: one
of the five own properties (a theme profile), a truthy value inherited from
`Object.prototype` (a function, or for `__proto__` the prototype object
itself), or `undefined` for a name found nowhere on the prototype chain. -/
inductive JsProp where
  | profile (c : ThemeConfig)
  | inherited
  | jsUndefined
deriving DecidableEq, Repr

/-- The member names every object literal inherits from `Object.prototype`;
reading any of them yields a truthy (non-`undefined`) value. -/
def objectPrototypeMembers : List String :=
  ["constructor", "hasOwnProperty", "isPrototypeOf", "propertyIsEnumerable",
   "toLocaleString", "toString", "valueOf", "__proto__",
   "__defineGetter__", "__defineSetter__", "__lookupGetter__", "__lookupSetter__"]

/-- The record literal `themeConfigs` under JavaScript bracket lookup: an
own key yields its profile; a name of an inherited `Object.prototype`
member yields that truthy inherited value; any other name yields
`undefined`. -/
def themeConfigs (name : String) : JsProp :=
  if name = "dark" then .profile darkConfig
  else if name = "light" then .profile lightConfig
  else if name = "monokai" then .profile monokaiConfig
  else if name = "nord" then .profile nordConfig
  else if name = "dracula" then .profile draculaConfig
  else if name ∈ objectPrototypeMembers then .inherited
  else .jsUndefined

/-- Every themed field (`config.bg`, `config.shikiTheme`, ...) read off an
inherited `Object.prototype` member is `undefined`; a JS template literal
interpolates `undefined` as the string "undefined", which is how the
composed document renders it. -/
def inheritedMemberConfig : ThemeConfig :=
  { bg := "undefined", headerBg := "undefined", lineNumColor := "undefined",
    borderColor := "undefined", titleColor := "undefined", shikiTheme := "undefined" }

/-- The lookup idiom `themeConfigs[themeName] || themeConfigs.dark` used at
extension.ts lines 25 and 217, combined with the themed field accesses the
callers perform on its result: `||` keeps any truthy left operand, so only
`undefined` (not an inherited prototype member) falls back to the dark
profile. -/
def lookupTheme (name : String) : ThemeConfig :=
  match themeConfigs name with
  | .profile c => c
  | .inherited => inheritedMemberConfig
  | .jsUndefined => darkConfig

/-! ## Highlighter adapter (`getHighlightedHtml`, extension.ts lines 24-54)

The shiki library is an external collaborator; it is modelled as a record
of the operations the adapter calls, each of which may fail. A `none`
result of `codeToHtml` stands for a thrown exception, `createOk = false`
for a failure of `require('shiki')`/`createHighlighter` (caught by the
surrounding try), and `loadLang lang = false` for a failed
`loadLanguage` call (caught by the inner try). -/

structure HighlightSvc where
  createOk : Bool
  loadedLangs : List String
  loadLang : String → Bool
  codeToHtml : String → String → String → Option String

/-- The plain-text fallback markup returned on every failure path. -/
def fallbackHtml (code : String) : String :=
  "<pre style=\x22margin:0\x22><code>" ++ escapeHtml code ++ "</code></pre>"

/-- Embedding of `getHighlightedHtml`: resolve the theme, then try the
highlighter; any failure yields `fallbackHtml`. -/
def getHighlightedHtml (svc : HighlightSvc) (code language themeName : String) : String :=
  let config := lookupTheme themeName
  if svc.createOk = false then fallbackHtml code
  else if language ∉ svc.loadedLangs ∧ svc.loadLang language = false then
    fallbackHtml code
  else
    match svc.codeToHtml code language config.shikiTheme with
    | some html => html
    | none => fallbackHtml code

/-! ## Line splitting and the line-number gutter (extension.ts lines 219-223)

`code.split('\n')` in JavaScript: the empty string splits to `[""]` (one
element), and a trailing newline yields a trailing empty element. -/

/-- Embedding of JavaScript `split('\n')` on the character list of the text. -/
def splitNl : List Char → List (List Char)
  | [] => [[]]
  | c :: rest =>
    let r := splitNl rest
    if c = '\n' then [] :: r
    else
      match r with
      | h :: t => (c :: h) :: t
      | [] => [[c]]

/-- Number of lines of a text, as the source computes it: the length of
`code.split('\n')`. -/
def lineCount (code : String) : Nat :=
  (splitNl code.data).length

/-- The displayed values of the gutter entries: `lines.map((_, i) => startLine + i)`. -/
def gutterValues (code : String) (startLine : Nat) : List Nat :=
  (splitNl code.data).mapIdx (fun i _ => startLine + i)

/-- Embedding of the `lineNumbersHtml` template expression: one
`div.line-number` per line when the option is on, the empty string when off. -/
def lineNumbersHtml (showLineNumbers : Bool) (code : String) (startLine : Nat) : String :=
  if showLineNumbers then
    String.join ((splitNl code.data).mapIdx
      (fun i _ => "<div class=\x22line-number\x22>" ++ toString (startLine + i) ++ "</div>"))
  else ""

/-! ## Nonce generation (`getNonce`, extension.ts lines 56-63)

`Math.random()` is modelled by an explicit random source `rand`: call `i`
yields index `rand i`, reduced into the 62-character alphabet as
`Math.floor(Math.random() * possible.length)` is always in range. -/

def noncePossible : String :=
  "ABCDEFGHIJKLMNOPQRSTUVWXYZabcdefghijklmnopqrstuvwxyz0123456789"

/-- Embedding of `getNonce`: 32 characters drawn from the alphabet by the
random source. -/
def getNonce (rand : Nat → Nat) : String :=
  ⟨(List.range 32).map (fun i => noncePossible.data.getD (rand i % noncePossible.data.length) 'A')⟩

/-! ## File-name stem and JSON quoting (extension.ts line 225) -/

/-- Embedding of `fileName.replace(/\.[^/.]+$/, '')`: drop a final
dot-extension (a dot followed by one or more characters none of which is a
dot or a slash) when present. -/
def stripExt (s : String) : String :=
  let rev := s.data.reverse
  let ext := rev.takeWhile (fun c => !(c == '.' || c == '/'))
  match rev.drop ext.length with
  | '.' :: more => if ext.isEmpty then s else ⟨more.reverse⟩
  | _ => s

/-- Modelled from the spec and `JSON.stringify` for the characters that can
occur here: quote the string, escaping backslash, double quote and the
common control characters. -/
def jsonEscapeChar (c : Char) : List Char :=
  if c = '\x22' then ['\\', '\x22']
  else if c = '\\' then ['\\', '\\']
  else if c = '\n' then ['\\', 'n']
  else if c = '\r' then ['\\', 'r']
  else if c = '\t' then ['\\', 't']
  else [c]

def jsonStringify (s : String) : String :=
  ⟨'\x22' :: (s.data.flatMap jsonEscapeChar ++ ['\x22'])⟩

/-! ## Webview document assembly (`buildWebviewHtml`, extension.ts lines 196-408) -/

structure WebviewParams where
  highlightedHtml : String
  code : String
  fileName : String
  startLine : Nat
  theme : String
  showLineNumbers : Bool
  windowControls : Bool
  shadow : Bool
  html2canvasUri : String
  nonce : String
  cspSource : String

/-- The `${windowControls ? ... : ''}` block of the template: the
three-dot window chrome with the escaped file name. -/
def windowHeaderHtml (windowControls : Bool) (fileName : String) : String :=
  if windowControls then "
      <div class=\x22window-header\x22>
        <div class=\x22window-dot dot-red\x22></div>
        <div class=\x22window-dot dot-yellow\x22></div>
        <div class=\x22window-dot dot-green\x22></div>
        <span class=\x22window-title\x22>" ++ escapeHtml fileName ++ "</span>
      </div>
      "
  else ""

/-- The `${showLineNumbers ? ... : ''}` block of the template: the
line-number gutter wrapper. -/
def gutterBlockHtml (showLineNumbers : Bool) (code : String) (startLine : Nat) : String :=
  if showLineNumbers then
    "<div class=\x22line-numbers\x22>" ++ lineNumbersHtml showLineNumbers code startLine ++ "</div>"
  else ""

/-- The template text from the opening of the document to the start of the
Content-Security-Policy meta tag's `content` attribute. -/
def tplDocOpen : String := "<!DOCTYPE html>
<html>
<head>
  <meta charset=\x22UTF-8\x22>
  <meta name=\x22viewport\x22 content=\x22width=device-width, initial-scale=1.0\x22>
  <meta http-equiv=\x22Content-Security-Policy\x22 content=\x22"

/-- The template text from the first CSS rule (right after the bare
`<style>` tag) through the end of the visible body, up to the start of the
document's own `<script>` tag: the full embedded stylesheet and markup with
the theme colors, optional shadow, window chrome, gutter and highlighted
code interpolated. -/
def tplCssBody (isDark : Bool) (config : ThemeConfig) (shadow windowControls : Bool)
    (fileName : String) (showLineNumbers : Bool) (code : String) (startLine : Nat)
    (highlightedHtml : String) : String :=
  "    * \x7b margin: 0; padding: 0; box-sizing: border-box; \x7d

    body \x7b
      padding: 40px;
      background: " ++ (if isDark then "#0d1117" else "#f5f5f5") ++ ";
      font-family: -apple-system, BlinkMacSystemFont, 'Segoe UI', Roboto, sans-serif;
      min-height: 100vh;
    \x7d

    .toolbar \x7b
      display: flex;
      gap: 12px;
      margin-bottom: 24px;
    \x7d

    .btn \x7b
      padding: 10px 20px;
      border: none;
      border-radius: 6px;
      cursor: pointer;
      font-size: 14px;
      font-weight: 500;
      transition: all 0.2s;
    \x7d

    .btn-primary \x7b background: #238636; color: white; \x7d
    .btn-primary:hover \x7b background: #2ea043; \x7d
    .btn-secondary \x7b
      background: " ++ (if isDark then "#21262d" else "#e1e4e8") ++ ";
      color: " ++ (if isDark then "#c9d1d9" else "#24292e") ++ ";
      border: 1px solid " ++ (if isDark then "#30363d" else "#d1d5da") ++ ";
    \x7d
    .btn-secondary:hover \x7b background: " ++ (if isDark then "#30363d" else "#d1d5da") ++ "; \x7d

    .preview-container \x7b display: inline-block; \x7d

    .code-container \x7b
      display: inline-block;
      background: " ++ config.bg ++ ";
      border-radius: 12px;
      overflow: hidden;
      " ++ (if shadow then "box-shadow: 0 20px 68px rgba(0,0,0,0.55);" else "") ++ "
    \x7d

    .window-header \x7b
      padding: 12px 16px;
      background: " ++ config.headerBg ++ ";
      display: flex;
      align-items: center;
      gap: 8px;
    \x7d

    .window-dot \x7b width: 12px; height: 12px; border-radius: 50%; \x7d
    .dot-red \x7b background: #ff5f56; \x7d
    .dot-yellow \x7b background: #ffbd2e; \x7d
    .dot-green \x7b background: #27c93f; \x7d
    .window-title \x7b margin-left: 12px; color: " ++ config.titleColor ++ "; font-size: 13px; \x7d

    .code-wrapper \x7b
      display: flex;
      padding: 20px;
      font-family: 'SF Mono', Monaco, 'Cascadia Code', Menlo, Consolas, 'Liberation Mono', monospace;
      font-size: 14px;
      line-height: 1.6;
    \x7d

    .line-numbers \x7b
      padding-right: 16px;
      text-align: right;
      color: " ++ config.lineNumColor ++ ";
      user-select: none;
      border-right: 1px solid " ++ config.borderColor ++ ";
      margin-right: 16px;
      flex-shrink: 0;
    \x7d

    .line-number \x7b line-height: 1.6; \x7d

    .code-content \x7b white-space: pre; overflow-x: auto; flex: 1; \x7d

    .code-content pre \x7b
      margin: 0 !important;
      padding: 0 !important;
      background: transparent !important;
      font-family: inherit;
      font-size: inherit;
      line-height: inherit;
    \x7d

    .code-content code \x7b
      font-family: inherit;
      font-size: inherit;
      line-height: inherit;
    \x7d

    .code-content .line \x7b
      display: block;
      line-height: 1.6;
      min-height: 1em;
    \x7d

    .hint \x7b margin-top: 20px; color: #8b949e; font-size: 12px; \x7d
  " ++ "</style>
</head>
<body>
  <div class=\x22toolbar\x22>
    <button class=\x22btn btn-primary\x22 onclick=\x22saveImage()\x22>Save as PNG</button>
    <button class=\x22btn btn-secondary\x22 onclick=\x22copyImage()\x22>Copy to Clipboard</button>
  </div>

  <div class=\x22preview-container\x22>
    <div class=\x22code-container\x22 id=\x22capture\x22>
      " ++ windowHeaderHtml windowControls fileName ++ "
      <div class=\x22code-wrapper\x22>
        " ++ gutterBlockHtml showLineNumbers code startLine ++ "
        <div class=\x22code-content\x22>" ++ highlightedHtml ++ "</div>
      </div>
    </div>
  </div>

  <p class=\x22hint\x22>Tip: Adjust theme, line numbers, and more in VS Code Settings &rarr; Extensions &rarr; CodeSnap</p>

  "

/-- The template text of the document's own script, from right after the
`const vscode` introduced by the opening `<script>` tag to the end of the
document, with the quoted suggested file name interpolated. -/
def tplScriptTail (fileNameForJs : String) : String :=
  " = acquireVsCodeApi();

    async function captureElement() \x7b
      const element = document.getElementById('capture');
      return html2canvas(element, \x7b backgroundColor: null, scale: 2 \x7d);
    \x7d

    async function saveImage() \x7b
      try \x7b
        const canvas = await captureElement();
        const dataUrl = canvas.toDataURL('image/png');
        vscode.postMessage(\x7b
          command: 'save',
          data: dataUrl,
          fileName: " ++ fileNameForJs ++ "
        \x7d);
      \x7d catch (err) \x7b
        vscode.postMessage(\x7b command: 'error', text: 'Failed to capture image: ' + err.message \x7d);
      \x7d
    \x7d

    async function copyImage() \x7b
      try \x7b
        const canvas = await captureElement();
        canvas.toBlob(async (blob) => \x7b
          if (blob) \x7b
            try \x7b
              await navigator.clipboard.write([
                new ClipboardItem(\x7b 'image/png': blob \x7d)
              ]);
              vscode.postMessage(\x7b command: 'copy' \x7d);
            \x7d catch (clipErr) \x7b
              vscode.postMessage(\x7b command: 'error', text: 'Clipboard access denied. Use Save as PNG instead.' \x7d);
            \x7d
          \x7d
        \x7d);
      \x7d catch (err) \x7b
        vscode.postMessage(\x7b command: 'error', text: 'Failed to capture image: ' + err.message \x7d);
      \x7d
    \x7d
  " ++ "</script>
</body>
</html>"

/-- Embedding of `buildWebviewHtml`: the full template literal with every
interpolation explicit. The literal text is chunked (`tplDocOpen`,
`tplCssBody`, `tplScriptTail` and the short literals below) exactly at the
interpolation sites; the concatenation is the source template verbatim,
with `\x7b`/`\x7d` denoting the braces of the embedded CSS and script. -/
def buildWebviewHtml (p : WebviewParams) : String :=
  let config := lookupTheme p.theme
  let isDark : Bool := p.theme != "light"
  let fileNameForJs := jsonStringify (stripExt p.fileName ++ "-codesnap")
  tplDocOpen
  ++ "default-src 'none'; "
  ++ "script-src 'nonce-" ++ p.nonce ++ "' " ++ p.cspSource
  ++ "; " ++ "style-src 'unsafe-inline'" ++ "; img-src data:;\x22>"
  ++ "\n  " ++ "<script nonce=\x22" ++ p.nonce ++ "\x22 src=\x22" ++ p.html2canvasUri
  ++ "\x22></script>\n  <style>\n"
  ++ tplCssBody isDark config p.shadow p.windowControls p.fileName p.showLineNumbers
      p.code p.startLine p.highlightedHtml
  ++ "<script nonce=\x22" ++ p.nonce ++ "\x22>\n    const vscode"
  ++ tplScriptTail fileNameForJs

/-! ## Panel lifecycle (`showCodeSnapPanel`, extension.ts lines 112-194)

The module-level `currentPanel` variable and the host's
create/reveal/set-html operations are modelled as an explicit state record.
`createCount` and `revealCount` count the calls to
`vscode.window.createWebviewPanel` and `currentPanel.reveal`; `html` is the
last document assigned to `currentPanel.webview.html`. -/

structure PanelState where
  panelOpen : Bool
  createCount : Nat
  revealCount : Nat
  html : String
deriving DecidableEq, Repr

def initialPanelState : PanelState :=
  { panelOpen := false, createCount := 0, revealCount := 0, html := "" }

/-- The configuration snapshot read at the top of `showCodeSnapPanel`
(`workspace.getConfiguration('codesnap')`). -/
structure SnapConfig where
  theme : String
  showLineNumbers : Bool
  windowControls : Bool
  shadow : Bool

/-- Embedding of `showCodeSnapPanel`: highlight the code, create the panel
if none is open (otherwise reveal the existing one), then assign the
composed document. The nonce is the value `getNonce()` returned for this
invocation. -/
def showCodeSnapPanel (s : PanelState) (cfg : SnapConfig)
    (code language fileName : String) (startLine : Nat)
    (svc : HighlightSvc) (html2canvasUri nonce cspSource : String) : PanelState :=
  let highlightedHtml := getHighlightedHtml svc code language cfg.theme
  let s1 :=
    if s.panelOpen then
      { s with revealCount := s.revealCount + 1 }
    else
      { s with panelOpen := true, createCount := s.createCount + 1 }
  { s1 with
    html := buildWebviewHtml
      { highlightedHtml := highlightedHtml, code := code, fileName := fileName,
        startLine := startLine, theme := cfg.theme,
        showLineNumbers := cfg.showLineNumbers,
        windowControls := cfg.windowControls, shadow := cfg.shadow,
        html2canvasUri := html2canvasUri, nonce := nonce, cspSource := cspSource } }

/-! ## Commands (`activate`, extension.ts lines 65-110)

`vscode.window.activeTextEditor` is an optional `EditorInfo`; the file
name field already carries the result of `path.basename`. -/

structure EditorInfo where
  docText : String
  languageId : String
  fileName : String
  selectionIsEmpty : Bool
  selectionText : String
  selectionStartLine : Nat

/-- Embedding of the `codesnap.captureSelection` command handler: the
resulting panel state paired with the error message shown, if any. -/
def captureSelectionCmd (editor : Option EditorInfo) (s : PanelState) (cfg : SnapConfig)
    (svc : HighlightSvc) (html2canvasUri nonce cspSource : String) :
    PanelState × Option String :=
  match editor with
  | none => (s, some "No active editor")
  | some e =>
    if e.selectionIsEmpty then
      (s, some "No code selected. Select some code first.")
    else
      (showCodeSnapPanel s cfg e.selectionText e.languageId e.fileName
        (e.selectionStartLine + 1) svc html2canvasUri nonce cspSource, none)

/-- Embedding of the `codesnap.captureFile` command handler. -/
def captureFileCmd (editor : Option EditorInfo) (s : PanelState) (cfg : SnapConfig)
    (svc : HighlightSvc) (html2canvasUri nonce cspSource : String) :
    PanelState × Option String :=
  match editor with
  | none => (s, some "No active editor")
  | some e =>
    (showCodeSnapPanel s cfg e.docText e.languageId e.fileName 1
      svc html2canvasUri nonce cspSource, none)

/-! ## Base64 decoding (`Buffer.from(base64, 'base64')`, extension.ts line 160)

Node's decoder maps the 64-character alphabet to sextets, ignores
characters outside the alphabet (padding included), and packs the sextets
into bytes, dropping a trailing partial byte. -/

def b64Val (c : Char) : Option Nat :=
  if 'A' ≤ c ∧ c ≤ 'Z' then some (c.toNat - 65)
  else if 'a' ≤ c ∧ c ≤ 'z' then some (c.toNat - 97 + 26)
  else if '0' ≤ c ∧ c ≤ '9' then some (c.toNat - 48 + 52)
  else if c = '+' then some 62
  else if c = '/' then some 63
  else none

def sextetsToBytes : List Nat → List Nat
  | a :: b :: c :: d :: rest =>
    (a * 4 + b / 16) :: ((b % 16) * 16 + c / 4) :: ((c % 4) * 64 + d) :: sextetsToBytes rest
  | [a, b] => [a * 4 + b / 16]
  | [a, b, c] => [a * 4 + b / 16, (b % 16) * 16 + c / 4]
  | _ => []

def base64Decode (s : String) : List Nat :=
  sextetsToBytes (s.data.filterMap b64Val)

/-! ## Webview message handler (extension.ts lines 146-169) -/

/-- The literal pattern of `data.replace(/^data:image\/png;base64,/, '')`. -/
def dataUrlHead : String := "data:image/png;base64,"

/-- Strip the data-URL head when the payload starts with it (the regex is
anchored, so at most one removal at the start). -/
def stripDataUrl (s : String) : String :=
  if dataUrlHead.data.isPrefixOf s.data then ⟨s.data.drop dataUrlHead.data.length⟩ else s

/-- The message posted by the webview, with JavaScript's absent fields as
`none`. -/
structure WebviewMessage where
  command : String
  data : Option String := none
  fileName : Option String := none
  text : Option String := none

/-- JavaScript truthiness of an optional string: `undefined` and the empty
string are falsy. -/
def truthy : Option String → Bool
  | some s => s != ""
  | none => false

/-- The host-visible effects of one run of the message handler: the default
file name handed to `showSaveDialog` (when a dialog was shown), the
path/bytes pair handed to `workspace.fs.writeFile` (when a write happened),
and the notifications shown. -/
structure HostEffects where
  saveDialogDefaultName : Option String := none
  written : Option (String × List Nat) := none
  infoMessage : Option String := none
  errorMessage : Option String := none
deriving DecidableEq, Repr

/-- Embedding of the `onDidReceiveMessage` callback. `saveDialog` is the
host's save dialog: given the default file name it returns the chosen path,
or `none` when the user cancels. -/
def onDidReceiveMessage (msg : WebviewMessage) (saveDialog : String → Option String) :
    HostEffects :=
  if msg.command = "copy" then
    { infoMessage := some "Screenshot copied to clipboard!" }
  else if msg.command = "save" ∧ truthy msg.data then
    let defaultName := (if truthy msg.fileName then msg.fileName.getD "" else "codesnap") ++ ".png"
    match saveDialog defaultName with
    | some uri =>
      { saveDialogDefaultName := some defaultName,
        written := some (uri, base64Decode (stripDataUrl (msg.data.getD ""))),
        infoMessage := some ("Screenshot saved to " ++ uri) }
    | none => { saveDialogDefaultName := some defaultName }
  else if msg.command = "error" then
    { errorMessage := some ("CodeSnap: " ++ msg.text.getD "undefined") }
  else
    {}

/-! ## Substring search, used to state properties of composed documents -/

def hasSub : List Char → List Char → Bool
  | [], pat => pat.isEmpty
  | l@(_ :: rest), pat => pat.isPrefixOf l || hasSub rest pat

/-- `containsStr hay needle` holds when `needle` occurs contiguously in `hay`. -/
def containsStr (hay needle : String) : Bool :=
  hasSub hay.data needle.data


/-! ## Concrete instances used by the theorems below -/

def escCharSpec (c : Char) : List Char :=
  if c = '&' then "&amp;".data
  else if c = '<' then "&lt;".data
  else if c = '>' then "&gt;".data
  else if c = '\x22' then "&quot;".data
  else if c = '\x27' then "&#039;".data
  else [c]

def svcFailW : HighlightSvc :=
  { createOk := false, loadedLangs := [], loadLang := fun _ => false,
    codeToHtml := fun _ _ _ => none }

def cfgW : SnapConfig :=
  { theme := "dark", showLineNumbers := true, windowControls := true, shadow := true }

def svcW : HighlightSvc :=
  { createOk := true, loadedLangs := ["typescript"], loadLang := fun _ => false,
    codeToHtml := fun code _ _ =>
      some ("<pre class=\x22shiki\x22><code>" ++ escapeHtml code ++ "</code></pre>") }

def eW : EditorInfo :=
  { docText := "const x = 1;", languageId := "typescript", fileName := "foo.ts",
    selectionIsEmpty := false, selectionText := "const x = 1;", selectionStartLine := 9 }

def paramsW7 : WebviewParams :=
  { highlightedHtml := "<pre></pre>", code := "a", fileName := "foo.ts", startLine := 1,
    theme := "dark", showLineNumbers := true, windowControls := true, shadow := true,
    html2canvasUri := "u", nonce := getNonce (fun _ => 0), cspSource := "c" }

/-- The complete policy `content` attribute of the concrete composed
document `buildWebviewHtml paramsW7`, up to its closing quote. -/
def cspContentW : String :=
  "default-src 'none'; " ++ "script-src 'nonce-" ++ getNonce (fun _ => 0) ++ "' " ++ "c"
  ++ "; " ++ "style-src 'unsafe-inline'" ++ "; img-src data:;\x22>"

/-! ## Theorems -/

theorem splitNl_ne_nil (l : List Char) : splitNl l ≠ [] := by
  induction l with
  | nil => simp [splitNl]
  | cons c rest ih =>
    simp only [splitNl]
    split
    · simp
    · cases h : splitNl rest with
      | nil => simp
      | cons a t => simp

theorem splitNl_length (l : List Char) :
    (splitNl l).length = l.count '\n' + 1 := by
  induction l with
  | nil => simp [splitNl]
  | cons c rest ih =>
    simp only [splitNl, List.count_cons]
    by_cases hc : c = '\n'
    · simp [hc, ih]
    · have hne : splitNl rest ≠ [] := splitNl_ne_nil rest
      cases h : splitNl rest with
      | nil => exact absurd h hne
      | cons a t =>
        simp only [if_neg hc, h]
        have : (c == '\n') = false := by simpa using hc
        simp only [this, if_false]
        rw [h] at ih
        simpa using ih

theorem replaceChar_append (pat : Char) (rep : List Char) (x y : List Char) :
    replaceChar pat rep (x ++ y) = replaceChar pat rep x ++ replaceChar pat rep y := by
  induction x with
  | nil => simp [replaceChar]
  | cons c rest ih =>
    simp only [List.cons_append, replaceChar]
    split <;> simp [ih]

theorem escapeHtml_append (x y : List Char) :
    escapeHtml ⟨x ++ y⟩ = escapeHtml ⟨x⟩ ++ escapeHtml ⟨y⟩ := by
  simp [escapeHtml, replaceChar_append]
  rfl

theorem escapeHtml_single (c : Char) : escapeHtml ⟨[c]⟩ = ⟨escCharSpec c⟩ := by
  by_cases h1 : c = '&'
  · subst h1; decide
  · by_cases h2 : c = '<'
    · subst h2; decide
    · by_cases h3 : c = '>'
      · subst h3; decide
      · by_cases h4 : c = '\x22'
        · subst h4; decide
        · by_cases h5 : c = '\x27'
          · subst h5; decide
          · simp [escapeHtml, replaceChar, escCharSpec, h1, h2, h3, h4, h5]

theorem escapeHtml_flatMap (l : List Char) :
    escapeHtml ⟨l⟩ = ⟨l.flatMap escCharSpec⟩ := by
  induction l with
  | nil => rfl
  | cons c rest ih =>
    have hcl : (c :: rest) = [c] ++ rest := rfl
    rw [hcl, escapeHtml_append, escapeHtml_single, ih]
    show (⟨escCharSpec c ++ rest.flatMap escCharSpec⟩ : String) = _
    simp [List.flatMap_cons]

/-- C1: the HTML-escaping function applies exactly the five substitutions
amp, lt, gt, quot, apos in that order (ampersand first): it acts as the
single-pass character map `escCharSpec` (so no entity is double-escaped),
and the literal input escapes to exactly the expected string. -/
theorem escapeHtml_five_substitutions :
    (∀ l : List Char, escapeHtml ⟨l⟩ = ⟨l.flatMap escCharSpec⟩)
    ∧ escapeHtml "5 > 3 && \x22ok\x22 < \x27yes\x27"
        = "5 &gt; 3 &amp;&amp; &quot;ok&quot; &lt; &#039;yes&#039;" :=
  ⟨escapeHtml_flatMap, by decide⟩

/-- C2: whenever the highlighter service fails (creation failure, language
neither loaded nor loadable, or a thrown highlight call), the adapter
returns the non-empty fallback markup wrapping the escaped original text
in a code block; it never throws (it is a total function). -/
theorem getHighlightedHtml_fallback (svc : HighlightSvc) (code language themeName : String)
    (h : svc.createOk = false
      ∨ (language ∉ svc.loadedLangs ∧ svc.loadLang language = false)
      ∨ svc.codeToHtml code language (lookupTheme themeName).shikiTheme = none) :
    getHighlightedHtml svc code language themeName = fallbackHtml code
    ∧ fallbackHtml code ≠ ""
    ∧ ∃ a b, fallbackHtml code = a ++ (escapeHtml code ++ b) := by
  refine ⟨?_, ?_, "<pre style=\x22margin:0\x22><code>", "</code></pre>", by
    simp [fallbackHtml, String.append_assoc]⟩
  · unfold getHighlightedHtml
    rcases h with h1 | h2 | h3
    · rw [if_pos h1]
    · by_cases hc : svc.createOk = false
      · rw [if_pos hc]
      · rw [if_neg hc, if_pos h2]
    · by_cases hc : svc.createOk = false
      · rw [if_pos hc]
      · by_cases hl : language ∉ svc.loadedLangs ∧ svc.loadLang language = false
        · rw [if_neg hc, if_pos hl]
        · rw [if_neg hc, if_neg hl, h3]
  · intro hemp
    have hd := congrArg String.data hemp
    simp [fallbackHtml, String.data_append] at hd


/-- C2 witness: the fallback at a concrete failing service and input. -/
theorem getHighlightedHtml_fallback_witness :
    getHighlightedHtml svcFailW "a<b" "cobol" "dark" = fallbackHtml "a<b"
    ∧ fallbackHtml "a<b" ≠ ""
    ∧ ∃ a b, fallbackHtml "a<b" = a ++ (escapeHtml "a<b" ++ b) :=
  getHighlightedHtml_fallback svcFailW "a<b" "cobol" "dark" (Or.inl rfl)

/-- C3: with line numbers on, the gutter has exactly `lineCount code`
entries displaying the consecutive values startLine, startLine+1, ...;
with the option off, both the entry list and the gutter block are empty. -/
theorem gutter_entries (code : String) (startLine : Nat)
    (h1 : code ≠ "") (h2 : 0 < startLine) :
    (gutterValues code startLine).length = lineCount code
    ∧ (∀ i, i < lineCount code → (gutterValues code startLine)[i]? = some (startLine + i))
    ∧ lineNumbersHtml true code startLine
        = String.join ((gutterValues code startLine).map
            (fun n => "<div class=\x22line-number\x22>" ++ toString n ++ "</div>"))
    ∧ lineNumbersHtml false code startLine = ""
    ∧ gutterBlockHtml false code startLine = "" := by
  refine ⟨by simp [gutterValues, lineCount], ?_, ?_, rfl, rfl⟩
  · intro i hi
    have hi' : i < (splitNl code.data).length := hi
    simp [gutterValues, List.getElem?_mapIdx, List.getElem?_eq_getElem hi']
  · simp only [lineNumbersHtml, gutterValues, if_true, List.mapIdx_eq_enum_map, List.map_map]
    rfl

/-- C3 witness: the gutter for a one-line selection starting at line 10. -/
theorem gutter_entries_witness :
    (gutterValues "const x = 1;" 10).length = lineCount "const x = 1;"
    ∧ (∀ i, i < lineCount "const x = 1;" →
        (gutterValues "const x = 1;" 10)[i]? = some (10 + i))
    ∧ lineNumbersHtml true "const x = 1;" 10
        = String.join ((gutterValues "const x = 1;" 10).map
            (fun n => "<div class=\x22line-number\x22>" ++ toString n ++ "</div>"))
    ∧ lineNumbersHtml false "const x = 1;" 10 = ""
    ∧ gutterBlockHtml false "const x = 1;" 10 = "" :=
  gutter_entries "const x = 1;" 10 (by decide) (by decide)

/-- C9: the gutter always has `newline count + 1` entries: the empty text
produces the single entry `startLine`, and appending a final newline adds
one trailing entry. -/
theorem gutter_count_newlines (code : String) (startLine : Nat) :
    (gutterValues code startLine).length = code.data.count '\n' + 1
    ∧ gutterValues "" startLine = [startLine]
    ∧ (gutterValues (code ++ "\n") startLine).length
        = (gutterValues code startLine).length + 1 := by
  refine ⟨by simp [gutterValues, splitNl_length], by simp [gutterValues, splitNl], ?_⟩
  simp [gutterValues, splitNl_length, String.data_append]

/-- C4: theme resolution is not total onto the five-profile table: the five
theme names resolve to their profiles and an ordinary unrecognized name
such as "solarized" does fall back to the dark profile, but the
unrecognized name "constructor" hits the truthy inherited
`Object.prototype.constructor`, the `||` fallback never applies, the
resolved value is none of the five profiles, and every themed field it
supplies to the document is undefined. -/
theorem lookupTheme_prototype_leak :
    themeConfigs "constructor" = JsProp.inherited
    ∧ lookupTheme "constructor" ≠ darkConfig
    ∧ lookupTheme "constructor" ≠ lightConfig
    ∧ lookupTheme "constructor" ≠ monokaiConfig
    ∧ lookupTheme "constructor" ≠ nordConfig
    ∧ lookupTheme "constructor" ≠ draculaConfig
    ∧ (lookupTheme "constructor").bg = "undefined"
    ∧ (lookupTheme "constructor").shikiTheme = "undefined"
    ∧ themeConfigs "solarized" = JsProp.jsUndefined
    ∧ lookupTheme "solarized" = darkConfig
    ∧ lookupTheme "dark" = darkConfig
    ∧ lookupTheme "light" = lightConfig
    ∧ lookupTheme "monokai" = monokaiConfig
    ∧ lookupTheme "nord" = nordConfig
    ∧ lookupTheme "dracula" = draculaConfig := by
  decide

/-- C6: a save message with payload `data:image/png;base64,AAAA` and file
name `foo-codesnap` makes the host show a save dialog defaulting to
`foo-codesnap.png` and, on confirmation, write exactly the decoded bytes
`[0, 0, 0]` of the stripped base64 payload `AAAA` to the chosen path. -/
theorem save_message_flow (saveDialog : String → Option String) (p : String)
    (h : saveDialog "foo-codesnap.png" = some p) :
    onDidReceiveMessage
        { command := "save", data := some "data:image/png;base64,AAAA",
          fileName := some "foo-codesnap" } saveDialog
      = { saveDialogDefaultName := some "foo-codesnap.png",
          written := some (p, [0, 0, 0]),
          infoMessage := some ("Screenshot saved to " ++ p),
          errorMessage := none }
    ∧ stripDataUrl "data:image/png;base64,AAAA" = "AAAA"
    ∧ base64Decode "AAAA" = [0, 0, 0] := by
  refine ⟨?_, by decide, by decide⟩
  have hb : base64Decode (stripDataUrl "data:image/png;base64,AAAA") = [0, 0, 0] := by decide
  unfold onDidReceiveMessage
  simp [truthy, h, hb]

/-- C6 witness: the flow at a concrete confirmed path. -/
theorem save_message_flow_witness :
    onDidReceiveMessage
        { command := "save", data := some "data:image/png;base64,AAAA",
          fileName := some "foo-codesnap" } (fun _ => some "/shots/out.png")
      = { saveDialogDefaultName := some "foo-codesnap.png",
          written := some ("/shots/out.png", [0, 0, 0]),
          infoMessage := some ("Screenshot saved to " ++ "/shots/out.png"),
          errorMessage := none }
    ∧ stripDataUrl "data:image/png;base64,AAAA" = "AAAA"
    ∧ base64Decode "AAAA" = [0, 0, 0] :=
  save_message_flow (fun _ => some "/shots/out.png") "/shots/out.png" rfl

/-- C10: a save message whose data is missing or empty, or a message whose
command is none of save, copy, error, leaves the host completely inert: no
dialog, no write, no notification. -/
theorem ignored_messages (msg : WebviewMessage) (saveDialog : String → Option String)
    (h : (msg.command = "save" ∧ truthy msg.data = false)
       ∨ (msg.command ≠ "save" ∧ msg.command ≠ "copy" ∧ msg.command ≠ "error")) :
    onDidReceiveMessage msg saveDialog
      = { saveDialogDefaultName := none, written := none,
          infoMessage := none, errorMessage := none } := by
  unfold onDidReceiveMessage
  rcases h with ⟨h1, h2⟩ | ⟨h1, h2, h3⟩
  · rw [if_neg (by simp [h1]), if_neg (by simp [h2]), if_neg (by simp [h1])]
  · rw [if_neg h2, if_neg (fun hc => h1 hc.1), if_neg h3]

/-- C10 witness: a save message with an empty payload is ignored. -/
theorem ignored_messages_witness :
    onDidReceiveMessage { command := "save", data := some "" } (fun _ => some "/shots/x.png")
      = { saveDialogDefaultName := none, written := none,
          infoMessage := none, errorMessage := none } :=
  ignored_messages { command := "save", data := some "" } (fun _ => some "/shots/x.png")
    (Or.inl ⟨rfl, by decide⟩)

/-- C8: with no focused editor, both commands show "No active editor" and
leave the panel state untouched; with an empty selection, Capture Selection
shows its message and leaves the panel state untouched. -/
theorem command_guards (s : PanelState) (cfg : SnapConfig) (svc : HighlightSvc)
    (uri nonce csp : String) (e : EditorInfo) (he : e.selectionIsEmpty = true) :
    captureSelectionCmd none s cfg svc uri nonce csp = (s, some "No active editor")
    ∧ captureSelectionCmd (some e) s cfg svc uri nonce csp
        = (s, some "No code selected. Select some code first.")
    ∧ captureFileCmd none s cfg svc uri nonce csp = (s, some "No active editor") := by
  refine ⟨rfl, ?_, rfl⟩
  simp [captureSelectionCmd, he]

/-- C8 witness: the guards at concrete states. -/
theorem command_guards_witness :
    captureSelectionCmd none initialPanelState ⟨"dark", true, true, true⟩ svcFailW "u" "N" "c"
        = (initialPanelState, some "No active editor")
    ∧ captureSelectionCmd (some ⟨"t", "ts", "a.ts", true, "", 0⟩) initialPanelState
        ⟨"dark", true, true, true⟩ svcFailW "u" "N" "c"
        = (initialPanelState, some "No code selected. Select some code first.")
    ∧ captureFileCmd none initialPanelState ⟨"dark", true, true, true⟩ svcFailW "u" "N" "c"
        = (initialPanelState, some "No active editor") :=
  command_guards initialPanelState ⟨"dark", true, true, true⟩ svcFailW "u" "N" "c"
    ⟨"t", "ts", "a.ts", true, "", 0⟩ rfl




/-- C5 (amended): a second Capture Entire File on an unchanged document
with identical configuration reuses the open surface (exactly one creation
across both invocations, and the second reveals the surface), and the
composed markup is byte-identical whenever the per-invocation token also
coincides. -/
theorem capture_twice_reuses_panel (s : PanelState) (cfg : SnapConfig) (svc : HighlightSvc)
    (e : EditorInfo) (uri n1 n2 csp : String) (hs : s.panelOpen = false) :
    (captureFileCmd (some e) (captureFileCmd (some e) s cfg svc uri n1 csp).1 cfg svc uri n2 csp).1.createCount
        = s.createCount + 1
    ∧ (captureFileCmd (some e) (captureFileCmd (some e) s cfg svc uri n1 csp).1 cfg svc uri n2 csp).1.revealCount
        = s.revealCount + 1
    ∧ (captureFileCmd (some e) s cfg svc uri n1 csp).2 = none
    ∧ (n1 = n2 →
        (captureFileCmd (some e) (captureFileCmd (some e) s cfg svc uri n1 csp).1 cfg svc uri n2 csp).1.html
          = (captureFileCmd (some e) s cfg svc uri n1 csp).1.html) := by
  refine ⟨?_, ?_, rfl, ?_⟩
  · simp [captureFileCmd, showCodeSnapPanel, hs]
  · simp [captureFileCmd, showCodeSnapPanel, hs]
  · intro hn
    subst hn
    simp [captureFileCmd, showCodeSnapPanel, hs]

/-- C5 witness: the reuse at a concrete editor, configuration and token. -/
theorem capture_twice_reuses_panel_witness :
    (captureFileCmd (some eW) (captureFileCmd (some eW) initialPanelState cfgW svcW "u" "N" "c").1 cfgW svcW "u" "N" "c").1.createCount
        = initialPanelState.createCount + 1
    ∧ (captureFileCmd (some eW) (captureFileCmd (some eW) initialPanelState cfgW svcW "u" "N" "c").1 cfgW svcW "u" "N" "c").1.revealCount
        = initialPanelState.revealCount + 1
    ∧ (captureFileCmd (some eW) initialPanelState cfgW svcW "u" "N" "c").2 = none
    ∧ ("N" = "N" →
        (captureFileCmd (some eW) (captureFileCmd (some eW) initialPanelState cfgW svcW "u" "N" "c").1 cfgW svcW "u" "N" "c").1.html
          = (captureFileCmd (some eW) initialPanelState cfgW svcW "u" "N" "c").1.html) :=
  capture_twice_reuses_panel initialPanelState cfgW svcW eW "u" "N" "N" "c" rfl

set_option maxRecDepth 8000 in
/-- C5 counterexample: two successive Capture Entire File invocations on
the unchanged document and configuration produce different markup, because
each invocation embeds a freshly generated nonce (here the generator's
outputs for two random streams). -/
theorem capture_twice_markup_differs :
    (captureFileCmd (some eW) (captureFileCmd (some eW) initialPanelState cfgW svcW "u" (getNonce fun _ => 0) "c").1 cfgW svcW "u" (getNonce fun _ => 1) "c").1.html
      ≠ (captureFileCmd (some eW) initialPanelState cfgW svcW "u" (getNonce fun _ => 0) "c").1.html := by
  decide

/-- C7 (amended): every composed document carries the invocation's token
(the nonce handed to `buildWebviewHtml`, freshly generated per invocation)
in its policy declaration's script-src clause together with the allowed
resource origin, and the same token tags both script fragments (the
rasterization-library tag and the document's own script); style fragments
carry no token — the policy instead allows inline styles wholesale. -/
theorem nonce_shared_policy_and_scripts (p : WebviewParams) :
    (∃ a b, buildWebviewHtml p
        = a ++ (("script-src 'nonce-" ++ p.nonce ++ "' " ++ p.cspSource) ++ b))
    ∧ (∃ a b, buildWebviewHtml p
        = a ++ (("<script nonce=\x22" ++ p.nonce ++ "\x22 src=\x22") ++ b))
    ∧ (∃ a b, buildWebviewHtml p
        = a ++ (("<script nonce=\x22" ++ p.nonce ++ "\x22>\n    const vscode") ++ b))
    ∧ (∃ a b, buildWebviewHtml p = a ++ ("style-src 'unsafe-inline'" ++ b)) := by
  refine ⟨⟨tplDocOpen ++ "default-src 'none'; ",
      "; " ++ "style-src 'unsafe-inline'" ++ "; img-src data:;\x22>" ++ "\n  "
        ++ "<script nonce=\x22" ++ p.nonce ++ "\x22 src=\x22" ++ p.html2canvasUri
        ++ "\x22></script>\n  <style>\n"
        ++ tplCssBody (p.theme != "light") (lookupTheme p.theme) p.shadow p.windowControls
            p.fileName p.showLineNumbers p.code p.startLine p.highlightedHtml
        ++ "<script nonce=\x22" ++ p.nonce ++ "\x22>\n    const vscode"
        ++ tplScriptTail (jsonStringify (stripExt p.fileName ++ "-codesnap")), ?_⟩,
    ⟨tplDocOpen ++ "default-src 'none'; " ++ "script-src 'nonce-" ++ p.nonce ++ "' "
        ++ p.cspSource ++ "; " ++ "style-src 'unsafe-inline'" ++ "; img-src data:;\x22>" ++ "\n  ",
      p.html2canvasUri ++ "\x22></script>\n  <style>\n"
        ++ tplCssBody (p.theme != "light") (lookupTheme p.theme) p.shadow p.windowControls
            p.fileName p.showLineNumbers p.code p.startLine p.highlightedHtml
        ++ "<script nonce=\x22" ++ p.nonce ++ "\x22>\n    const vscode"
        ++ tplScriptTail (jsonStringify (stripExt p.fileName ++ "-codesnap")), ?_⟩,
    ⟨tplDocOpen ++ "default-src 'none'; " ++ "script-src 'nonce-" ++ p.nonce ++ "' "
        ++ p.cspSource ++ "; " ++ "style-src 'unsafe-inline'" ++ "; img-src data:;\x22>" ++ "\n  "
        ++ "<script nonce=\x22" ++ p.nonce ++ "\x22 src=\x22" ++ p.html2canvasUri
        ++ "\x22></script>\n  <style>\n"
        ++ tplCssBody (p.theme != "light") (lookupTheme p.theme) p.shadow p.windowControls
            p.fileName p.showLineNumbers p.code p.startLine p.highlightedHtml,
      tplScriptTail (jsonStringify (stripExt p.fileName ++ "-codesnap")), ?_⟩,
    ⟨tplDocOpen ++ "default-src 'none'; " ++ "script-src 'nonce-" ++ p.nonce ++ "' "
        ++ p.cspSource ++ "; ",
      "; img-src data:;\x22>" ++ "\n  "
        ++ "<script nonce=\x22" ++ p.nonce ++ "\x22 src=\x22" ++ p.html2canvasUri
        ++ "\x22></script>\n  <style>\n"
        ++ tplCssBody (p.theme != "light") (lookupTheme p.theme) p.shadow p.windowControls
            p.fileName p.showLineNumbers p.code p.startLine p.highlightedHtml
        ++ "<script nonce=\x22" ++ p.nonce ++ "\x22>\n    const vscode"
        ++ tplScriptTail (jsonStringify (stripExt p.fileName ++ "-codesnap")), ?_⟩⟩
  all_goals simp only [buildWebviewHtml, String.append_assoc]



set_option maxRecDepth 8000 in
/-- C7 counterexample: in the concrete composed document, the complete
policy declaration carries the token only in its script-src clause — its
style-src clause is the blanket inline allowance and carries no token —
and the document's style fragment opens with the bare attributeless tag
`<style>`, so the style fragments do not share the token. -/
theorem style_fragments_carry_no_token :
    (∃ b, buildWebviewHtml paramsW7 = tplDocOpen ++ (cspContentW ++ b))
    ∧ containsStr cspContentW "style-src 'nonce" = false
    ∧ containsStr cspContentW "style-src 'unsafe-inline'" = true
    ∧ containsStr cspContentW ("'nonce-" ++ getNonce (fun _ => 0) ++ "'") = true
    ∧ (∃ c d, buildWebviewHtml paramsW7 = c ++ ("\x22></script>\n  <style>\n" ++ d)) := by
  refine ⟨⟨"\n  "
        ++ "<script nonce=\x22" ++ paramsW7.nonce ++ "\x22 src=\x22" ++ paramsW7.html2canvasUri
        ++ "\x22></script>\n  <style>\n"
        ++ tplCssBody (paramsW7.theme != "light") (lookupTheme paramsW7.theme) paramsW7.shadow
            paramsW7.windowControls paramsW7.fileName paramsW7.showLineNumbers
            paramsW7.code paramsW7.startLine paramsW7.highlightedHtml
        ++ "<script nonce=\x22" ++ paramsW7.nonce ++ "\x22>\n    const vscode"
        ++ tplScriptTail (jsonStringify (stripExt paramsW7.fileName ++ "-codesnap")), ?_⟩,
    by decide, by decide, by decide,
    ⟨tplDocOpen ++ "default-src 'none'; " ++ "script-src 'nonce-" ++ paramsW7.nonce ++ "' "
        ++ paramsW7.cspSource ++ "; " ++ "style-src 'unsafe-inline'" ++ "; img-src data:;\x22>"
        ++ "\n  " ++ "<script nonce=\x22" ++ paramsW7.nonce ++ "\x22 src=\x22" ++ paramsW7.html2canvasUri,
      tplCssBody (paramsW7.theme != "light") (lookupTheme paramsW7.theme) paramsW7.shadow
            paramsW7.windowControls paramsW7.fileName paramsW7.showLineNumbers
            paramsW7.code paramsW7.startLine paramsW7.highlightedHtml
        ++ "<script nonce=\x22" ++ paramsW7.nonce ++ "\x22>\n    const vscode"
        ++ tplScriptTail (jsonStringify (stripExt paramsW7.fileName ++ "-codesnap")), ?_⟩⟩
  · simp only [buildWebviewHtml, cspContentW, paramsW7, String.append_assoc]
  · simp only [buildWebviewHtml, paramsW7, String.append_assoc]

end CodeSnap
